import Mathlib

/-!
Verification of the Sentinel-2 data-server pipeline
(src/Data_Server_pkg/Sentinel2_Data.py) against its natural-language
specification.

The Python module is shallowly embedded:
* string slicing s[a:b] becomes the clamped drop/take on the character list
  (Python slices never fail, they clamp to the string length);
* the file system workspace becomes an association list of
  (file name, dataset) pairs, mutated by explicit state passing;
* exceptions become an error component threaded through every step
  (`MResult` pairs an optional raised error with the file system at the
  moment the error escaped, so pre-error mutations stay observable);
* xarray datasets are abstracted to their coordinate vectors (lon, lat),
  which is all the merge logic inspects.
-/

/-- Errors mirroring the Python exceptions raised in Sentinel2_Data.py:
`NoPath` (raised by `delete`), `NoResolution` (raised by `loadBand` and
`extractBands`), `TypeError` and `FileNotFoundError` (raised by
`merge_Sentinel`), and the built-in error from `xr.open_dataset` on a
missing file. -/
inductive S2Error where
  | NoPath (msg : String)
  | NoResolution (msg : String)
  | TypeError (msg : String)
  | FileNotFoundError (msg : String)
  | OpenMissingFile (msg : String)
deriving DecidableEq, Repr

/-- Python string slicing `s[a:b]` for 0 ≤ a ≤ b: drop the first `a`
characters, keep the next `b - a`.  Clamps silently when the string is
shorter than the offsets, exactly as Python does. -/
def pySlice (s : String) (a b : Nat) : String :=
  String.mk ((s.data.drop a).take (b - a))

/-- `getDate` (Sentinel2_Data.py line 275):
`filename[11:15] + "-" + filename[15:17] + "-" + filename[17:19]`. -/
def getDate (filename : String) : String :=
  pySlice filename 11 15 ++ "-" ++ pySlice filename 15 17 ++ "-" ++ pySlice filename 17 19

/-- `getTile` (line 289): `filename[38:44]`. -/
def getTile (filename : String) : String :=
  pySlice filename 38 44

/-- The grid-size computation of `loadBand` (lines 188-197): the if/elif
chain over the requested resolution; any other value raises
`NoResolution("Invalid Resolution, try 10, 20, 60 or 100")`. -/
def computeGridSize (resolution : Int) : Except S2Error Nat :=
  if resolution = 10 then .ok (1830 * 3 * 2)
  else if resolution = 20 then .ok (1830 * 3)
  else if resolution = 60 then .ok 1830
  else if resolution = 100 then .ok 1098
  else .error (S2Error.NoResolution "Invalid Resolution, try 10, 20, 60 or 100")

/-- The coordinate-building while loop of `loadBand` (lines 199-207):
`j` starts at `res - 1` and counts down to 0 while `i` counts up;
iteration writes `lon[i] = left + i*resolution` and
`lat[i] = bottom + j*resolution`.  The fuel argument is the number of
remaining iterations (`j + 1`), and `i` is the running write index. -/
def coordLoop (left bottom resolution : ℚ) (i : Nat) : Nat → List ℚ × List ℚ
  | 0 => ([], [])
  | t + 1 =>
    let rest := coordLoop left bottom resolution (i + 1) t
    ((left + (i : ℚ) * resolution) :: rest.1, (bottom + (t : ℚ) * resolution) :: rest.2)

/-- The (lon, lat) coordinate vectors produced by `loadBand` for raster
bounds `left`/`bottom`, pixel size `resolution` and grid size `res`. -/
def loadBandCoords (left bottom resolution : ℚ) (res : Nat) : List ℚ × List ℚ :=
  coordLoop left bottom resolution 0 res

/-- Raster-handle accounting of `loadBand` (lines 183-260): `b4` and `b8`
are opened first (two handles open); a `NoResolution` raise at line 197
propagates immediately, skipping the `b4.close()`/`b8.close()` calls at
lines 258-259, which only run on the success path.  Returns the result
together with the number of raster handles still open at exit. -/
def loadBandHandles (resolution : Int) : Except S2Error Nat × Nat :=
  let openedHandles := 2
  match computeGridSize resolution with
  | .error e => (.error e, openedHandles)
  | .ok res => (.ok res, openedHandles - 2)

-- Auxiliary characterisations of the coordinate loop.

theorem coordLoop_fst (left bottom resolution : ℚ) :
    ∀ t i, (coordLoop left bottom resolution i t).1
      = (List.range t).map (fun k => left + ((i + k : Nat) : ℚ) * resolution) := by
  intro t
  induction t with
  | zero => intro i; simp [coordLoop]
  | succ n ih =>
    intro i
    simp only [coordLoop, ih (i + 1), List.range_succ_eq_map, List.map_cons, List.map_map,
      Nat.add_zero]
    refine congrArg₂ List.cons rfl ?_
    apply List.map_congr_left
    intro k _
    simp only [Function.comp_apply]
    have h : i + 1 + k = i + Nat.succ k := by omega
    rw [h]

theorem coordLoop_snd (left bottom resolution : ℚ) :
    ∀ t i, (coordLoop left bottom resolution i t).2
      = (List.range t).map (fun k => bottom + ((t - 1 - k : Nat) : ℚ) * resolution) := by
  intro t
  induction t with
  | zero => intro i; simp [coordLoop]
  | succ n ih =>
    intro i
    simp only [coordLoop, ih (i + 1), List.range_succ_eq_map, List.map_cons, List.map_map]
    refine congrArg₂ List.cons ?_ ?_
    · have h : n + 1 - 1 - 0 = n := by omega
      rw [h]
    · apply List.map_congr_left
      intro k _
      simp only [Function.comp_apply]
      have h : n - 1 - k = n + 1 - 1 - Nat.succ k := by omega
      rw [h]

theorem coordLoop_fst_length (left bottom resolution : ℚ) (t i : Nat) :
    (coordLoop left bottom resolution i t).1.length = t := by
  rw [coordLoop_fst]; simp

theorem coordLoop_snd_length (left bottom resolution : ℚ) (t i : Nat) :
    (coordLoop left bottom resolution i t).2.length = t := by
  rw [coordLoop_snd]; simp

/-- C2: for every requested resolution, `loadBand` computes the grid size
10980 = 1830*3*2 for 10, 5490 = 1830*3 for 20, 1830 for 60 and 1098 for
100; the generated lat/lon vectors have exactly that length; and any
resolution outside {10, 20, 60, 100} yields no grid size but the
`NoResolution` error naming the allowed set. -/
theorem loadBand_grid_size_and_coord_lengths (r : Int) (left bottom : ℚ) :
    (r = 10 → computeGridSize r = .ok 10980)
    ∧ (r = 20 → computeGridSize r = .ok 5490)
    ∧ (r = 60 → computeGridSize r = .ok 1830)
    ∧ (r = 100 → computeGridSize r = .ok 1098)
    ∧ (r ≠ 10 → r ≠ 20 → r ≠ 60 → r ≠ 100 →
        computeGridSize r = .error (S2Error.NoResolution "Invalid Resolution, try 10, 20, 60 or 100"))
    ∧ (∀ size, computeGridSize r = .ok size →
        (loadBandCoords left bottom (r : ℚ) size).1.length = size
        ∧ (loadBandCoords left bottom (r : ℚ) size).2.length = size) := by
  refine ⟨?_, ?_, ?_, ?_, ?_, ?_⟩
  · rintro rfl; rfl
  · rintro rfl; rfl
  · rintro rfl; rfl
  · rintro rfl; rfl
  · intro h10 h20 h60 h100
    simp [computeGridSize, h10, h20, h60, h100]
  · intro size _
    exact ⟨coordLoop_fst_length left bottom (r : ℚ) size 0,
           coordLoop_snd_length left bottom (r : ℚ) size 0⟩

/-- Closed instance of `loadBand_grid_size_and_coord_lengths`:
resolution 10 yields grid size 10980 and coordinate vectors of length 10980. -/
theorem loadBand_grid_size_and_coord_lengths_witness :
    computeGridSize 10 = .ok 10980
    ∧ (loadBandCoords 0 0 ((10 : Int) : ℚ) 10980).1.length = 10980
    ∧ (loadBandCoords 0 0 ((10 : Int) : ℚ) 10980).2.length = 10980 := by
  refine ⟨(loadBand_grid_size_and_coord_lengths 10 0 0).1 rfl, ?_, ?_⟩
  · exact ((loadBand_grid_size_and_coord_lengths 10 0 0).2.2.2.2.2 10980
      ((loadBand_grid_size_and_coord_lengths 10 0 0).1 rfl)).1
  · exact ((loadBand_grid_size_and_coord_lengths 10 0 0).2.2.2.2.2 10980
      ((loadBand_grid_size_and_coord_lengths 10 0 0).1 rfl)).2

/-- C3: for every raster bounds and every positive pixel size, the
longitude vector generated by the `loadBand` loop is strictly increasing
in index and the latitude vector is strictly decreasing in index
(west-to-east, north-to-south ordering). -/
theorem loadBand_lon_increasing_lat_decreasing
    (left bottom resolution : ℚ) (hres : 0 < resolution) (res : Nat) :
    (loadBandCoords left bottom resolution res).1.Pairwise (· < ·)
    ∧ (loadBandCoords left bottom resolution res).2.Pairwise (· > ·) := by
  constructor
  · rw [loadBandCoords, coordLoop_fst]
    rw [List.pairwise_map]
    apply List.Pairwise.imp ?_ (List.pairwise_lt_range res)
    intro a b hab
    have hq : ((0 + a : Nat) : ℚ) < ((0 + b : Nat) : ℚ) := by
      exact_mod_cast by omega
    have := mul_lt_mul_of_pos_right hq hres
    linarith
  · rw [loadBandCoords, coordLoop_snd]
    rw [List.pairwise_map]
    rw [List.pairwise_iff_getElem]
    intro a b ha hb hab
    simp only [List.length_range] at ha hb
    simp only [List.getElem_range]
    have hnat : res - 1 - b < res - 1 - a := by omega
    have hq : ((res - 1 - b : Nat) : ℚ) < ((res - 1 - a : Nat) : ℚ) := by
      exact_mod_cast hnat
    have := mul_lt_mul_of_pos_right hq hres
    simp only [gt_iff_lt]
    linarith

/-- Closed instance of `loadBand_lon_increasing_lat_decreasing` at
bounds 0/0, pixel size 1, grid size 3. -/
theorem loadBand_lon_increasing_lat_decreasing_witness :
    (0 : ℚ) < 1
    ∧ (loadBandCoords 0 0 1 3).1.Pairwise (· < ·)
    ∧ (loadBandCoords 0 0 1 3).2.Pairwise (· > ·) :=
  ⟨by norm_num,
   (loadBand_lon_increasing_lat_decreasing 0 0 1 (by norm_num) 3).1,
   (loadBand_lon_increasing_lat_decreasing 0 0 1 (by norm_num) 3).2⟩

/-- C5 (code bug): calling `loadBand` with an unsupported resolution such
as 30 raises `NoResolution` while both raster handles opened at lines
183-184 are still open: the `close` calls at lines 258-259 sit after the
raise and are skipped, so the handles leak on the error path.  On the
success path both handles are closed. -/
theorem loadBand_leaks_handles_on_invalid_resolution :
    loadBandHandles 30
      = (.error (S2Error.NoResolution "Invalid Resolution, try 10, 20, 60 or 100"), 2)
    ∧ (loadBandHandles 60).2 = 0 := by
  constructor
  · rfl
  · rfl

-- The workspace / merge-engine model.

/-- An xarray dataset abstracted to its coordinate vectors.  The merge
logic of the source only inspects and combines coordinates. -/
structure DS where
  lon : List ℚ
  lat : List ℚ
deriving DecidableEq, Repr

/-- A workspace directory: the listing in order, each file name paired
with the dataset persisted under it. -/
abbrev FS := List (String × DS)

/-- `os.listdir`: the current file names of the workspace. -/
def listdir (fs : FS) : List String := fs.map Prod.fst

/-- Content of a file, if present. -/
def lookupDS (fs : FS) (n : String) : Option DS :=
  (fs.find? (fun p => p.1 = n)).map Prod.snd

/-- `os.remove`: drop the entry named `n`. -/
def removeFS (fs : FS) (n : String) : FS :=
  fs.filter (fun p => ¬ p.1 = n)

/-- `ds.to_netcdf(path, 'w')`: overwrite the file if it exists, else
append it to the listing. -/
def writeFS (fs : FS) (n : String) (d : DS) : FS :=
  if n ∈ listdir fs then fs.map (fun p => if p.1 = n then (n, d) else p)
  else fs ++ [(n, d)]

/-- `os.rename(old, new)`. -/
def renameFS (fs : FS) (oldName newName : String) : FS :=
  fs.map (fun p => if p.1 = oldName then (newName, p.2) else p)

/-- Result of one step of the engine: the error that escaped (if any)
together with the workspace at that moment.  Python exceptions leave the
file system exactly as the last completed mutation left it. -/
abbrev MResult := Option S2Error × FS

/-- Sequencing: an already-raised error propagates unchanged. -/
def stepBind (r : MResult) (f : FS → MResult) : MResult :=
  match r with
  | (some e, fs) => (some e, fs)
  | (none, fs) => f fs

/-- `delete` (lines 447-457): `os.remove` the path; a missing file turns
the `FileNotFoundError` into `NoPath("No file in this path")`. -/
def delete (fs : FS) (n : String) : MResult :=
  if n ∈ listdir fs then (none, removeFS fs n)
  else (some (S2Error.NoPath "No file in this path"), fs)

/-- `xr.open_dataset`: read a persisted dataset; a missing file raises. -/
def open_dataset (fs : FS) (n : String) : Except S2Error DS :=
  match lookupDS fs n with
  | some d => .ok d
  | none => .error (S2Error.OpenMissingFile "No such file or directory")

/-- The label-slice selection `ds_left.sel(lon = slice(a, b))` of
`merge_coords` (line 437): keep the longitudes in the closed interval
[a, b] (xarray slice selection on an ascending coordinate). -/
def selLonSlice (ds : DS) (a b : ℚ) : DS :=
  ⟨ds.lon.filter (fun x => decide (a ≤ x ∧ x ≤ b)), ds.lat⟩

/-- `xr.combine_by_coords` on two datasets: the union of the coordinate
grids (the order of the combined coordinate vector is abstracted; the
claims about the result are order-independent). -/
def combine_by_coords (l r : DS) : DS :=
  ⟨l.lon ++ r.lon.filter (fun x => decide (x ∉ l.lon)),
   l.lat ++ r.lat.filter (fun x => decide (x ∉ l.lat))⟩

/-- `merge_coords` (lines 426-441) without the final save: trim the left
dataset to the slice from its own first longitude to the right dataset's
first longitude, then combine with the full right dataset by coordinates.
The save performed by `safe_datacube` (with `".nc"` appended to the name)
is done by the caller model. -/
def merge_coords (ds_left ds_right : DS) : DS :=
  combine_by_coords (selLonSlice ds_left ds_left.lon.headI ds_right.lon.headI) ds_right

/-- One inner-loop body of the pairwise phase of `merge_Sentinel`
(lines 359-380): the if/elif chain over the name slices (the Python
locals file1Date = file1[9:19], file1Tile = file1[20:26],
file1Res = file1[27:31] and likewise for file2 are inlined) — zone "31"
deletion, duplicate skip, adjacent T32ULC/T32UMC coordinate join (open
both files, write the merged file, delete both inputs), or fall through
with no action. -/
def pairStep (fs : FS) (file1 file2 : String) : MResult :=
  if pySlice file1 21 23 = "31" then delete fs file1
  else if pySlice file2 21 23 = "31" then delete fs file2
  else if pySlice file1 9 19 = pySlice file2 9 19 ∧ pySlice file1 20 26 = pySlice file2 20 26
      ∧ pySlice file1 27 31 = pySlice file2 27 31 then
    (none, fs)
  else if pySlice file1 9 19 = pySlice file2 9 19 ∧ pySlice file1 20 26 = "T32ULC"
      ∧ pySlice file2 20 26 = "T32UMC" ∧ pySlice file1 27 31 = pySlice file2 27 31 then
    match open_dataset fs file1 with
    | .error e => (some e, fs)
    | .ok fileLeft =>
      match open_dataset fs file2 with
      | .error e => (some e, fs)
      | .ok fileRight =>
        let fsW := writeFS fs (pySlice file1 0 20 ++ "Merged" ++ pySlice file1 26 31 ++ ".nc")
          (merge_coords fileLeft fileRight)
        stepBind (delete fsW file1) (fun fs2 => delete fs2 file2)
  else (none, fs)

/-- The inner `for file2 in files` loop, driven by the fixed snapshot. -/
def innerLoop (fs : FS) (file1 : String) : List String → MResult
  | [] => (none, fs)
  | f2 :: rest => stepBind (pairStep fs file1 f2) (fun fs2 => innerLoop fs2 file1 rest)

/-- The outer `for file1 in files` loop: every outer iteration replays the
whole inner loop over the same snapshot `files`. -/
def outerLoop (files : List String) (fs : FS) : List String → MResult
  | [] => (none, fs)
  | f1 :: rest => stepBind (innerLoop fs f1 files) (fun fs2 => outerLoop files fs2 rest)

/-- Delete each listed path in order (lines 398-399). -/
def deleteAll (fs : FS) : List String → MResult
  | [] => (none, fs)
  | f :: rest => stepBind (delete fs f) (fun fs2 => deleteAll fs2 rest)

/-- `xr.open_mfdataset`: the lazy multi-file combine of all remaining
datasets along their coordinates. -/
def open_mfdataset (dss : List DS) : DS :=
  match dss with
  | [] => ⟨[], []⟩
  | d :: rest => rest.foldl combine_by_coords d

/-- The final concatenation phase of `merge_Sentinel` (lines 382-399):
re-read the directory, open every remaining file and record its path,
combine them, save the datacube under `nameSentinel + ".nc"`, then delete
every recorded path. -/
def finalPhase (fs : FS) (nameSentinel : String) : MResult :=
  let files := listdir fs
  let dss := files.filterMap (lookupDS fs)
  let datacube := open_mfdataset dss
  let fsW := writeFS fs (nameSentinel ++ ".nc") datacube
  deleteAll fsW files

/-- Python `str.endswith` as used at line 349 (`nc.endswith(".nc")`),
tested on the character list. -/
def endswith (s suffix : String) : Bool :=
  suffix.data.isSuffixOf s.data

/-- `merge_Sentinel` (lines 337-403): snapshot the listing; raise
`TypeError("Wrong file in directory")` if any file lacks the `.nc`
extension; raise `FileNotFoundError("Directory empty")` on an empty
listing; rename a single file to `merged_cube.nc` and return; otherwise
run the pairwise phase over the snapshot and then the final
concatenation phase. -/
def merge_Sentinel (fs : FS) (nameSentinel : String) : MResult :=
  let files := listdir fs
  if files.all (fun nc => endswith nc ".nc") then
    if files.length = 0 then (some (S2Error.FileNotFoundError "Directory empty"), fs)
    else if files.length = 1 then
      (none, renameFS fs (listdir fs).headI "merged_cube.nc")
    else
      stepBind (outerLoop files fs files) (fun fs2 => finalPhase fs2 nameSentinel)
  else (some (S2Error.TypeError "Wrong file in directory"), fs)

-- Helper lemmas about Python slicing.

theorem pySlice_eq_empty (s : String) (a b : Nat) (h : s.data.length ≤ a) :
    pySlice s a b = "" := by
  apply String.ext
  show (s.data.drop a).take (b - a) = ([] : List Char)
  rw [List.drop_eq_nil_of_le h, List.take_nil]

theorem pySlice_sub_21_23 (s t : String) (h : pySlice s 20 26 = t) :
    pySlice s 21 23 = pySlice t 1 3 := by
  have hd : (s.data.drop 20).take 6 = t.data := congrArg String.data h
  apply String.ext
  show (s.data.drop 21).take 2 = (t.data.drop 1).take 2
  have h21 : (s.data.drop 20).drop 1 = s.data.drop 21 := by
    rw [List.drop_drop]
  have key : (((s.data.drop 20).take 6).drop 1).take 2 = ((s.data.drop 20).drop 1).take 2 := by
    rw [List.drop_take, List.take_take]
    norm_num
  rw [← h21, ← key, hd]

theorem zone_of_tile_T32ULC (s : String) (h : pySlice s 20 26 = "T32ULC") :
    pySlice s 21 23 = "32" := by
  rw [pySlice_sub_21_23 s _ h]; rfl

theorem zone_of_tile_T32UMC (s : String) (h : pySlice s 20 26 = "T32UMC") :
    pySlice s 21 23 = "32" := by
  rw [pySlice_sub_21_23 s _ h]; rfl

-- Branch characterisations of the pairwise step.

theorem stepBind_ok (fs : FS) (f : FS → MResult) : stepBind (none, fs) f = f fs := rfl

theorem stepBind_err (e : S2Error) (fs : FS) (f : FS → MResult) :
    stepBind (some e, fs) f = (some e, fs) := rfl

theorem pairStep_zone31_fst (fs : FS) (f1 f2 : String) (h : pySlice f1 21 23 = "31") :
    pairStep fs f1 f2 = delete fs f1 := by
  unfold pairStep
  rw [if_pos h]

theorem pairStep_dup (fs : FS) (f1 f2 : String)
    (h31a : pySlice f1 21 23 ≠ "31") (h31b : pySlice f2 21 23 ≠ "31")
    (hd : pySlice f1 9 19 = pySlice f2 9 19)
    (ht : pySlice f1 20 26 = pySlice f2 20 26)
    (hr : pySlice f1 27 31 = pySlice f2 27 31) :
    pairStep fs f1 f2 = (none, fs) := by
  unfold pairStep
  rw [if_neg h31a, if_neg h31b, if_pos ⟨hd, ht, hr⟩]

theorem pairStep_self (fs : FS) (f : String) (h31 : pySlice f 21 23 ≠ "31") :
    pairStep fs f f = (none, fs) :=
  pairStep_dup fs f f h31 h31 rfl rfl rfl

theorem pairStep_noAction (fs : FS) (f1 f2 : String)
    (h31a : pySlice f1 21 23 ≠ "31") (h31b : pySlice f2 21 23 ≠ "31")
    (ht : pySlice f1 20 26 ≠ pySlice f2 20 26)
    (ht1 : pySlice f1 20 26 ≠ "T32ULC") :
    pairStep fs f1 f2 = (none, fs) := by
  unfold pairStep
  rw [if_neg h31a, if_neg h31b, if_neg (fun hc => ht hc.2.1),
    if_neg (fun hc => ht1 hc.2.1)]

theorem pairStep_merge (fs : FS) (f1 f2 : String) (dsL dsR : DS)
    (hd : pySlice f1 9 19 = pySlice f2 9 19)
    (ht1 : pySlice f1 20 26 = "T32ULC")
    (ht2 : pySlice f2 20 26 = "T32UMC")
    (hr : pySlice f1 27 31 = pySlice f2 27 31)
    (hL : open_dataset fs f1 = .ok dsL) (hR : open_dataset fs f2 = .ok dsR) :
    pairStep fs f1 f2
      = stepBind
          (delete (writeFS fs (pySlice f1 0 20 ++ "Merged" ++ pySlice f1 26 31 ++ ".nc")
            (merge_coords dsL dsR)) f1)
          (fun fs2 => delete fs2 f2) := by
  have h31a : pySlice f1 21 23 ≠ "31" := by
    rw [zone_of_tile_T32ULC f1 ht1]; decide
  have h31b : pySlice f2 21 23 ≠ "31" := by
    rw [zone_of_tile_T32UMC f2 ht2]; decide
  have hnd : ¬ (pySlice f1 9 19 = pySlice f2 9 19 ∧ pySlice f1 20 26 = pySlice f2 20 26
      ∧ pySlice f1 27 31 = pySlice f2 27 31) := by
    rintro ⟨-, htt, -⟩
    rw [ht1, ht2] at htt
    exact absurd htt (by decide)
  unfold pairStep
  rw [if_neg h31a, if_neg h31b, if_neg hnd, if_pos ⟨hd, ht1, ht2, hr⟩, hL, hR]

-- C4: the tile-identity parsing of short names.

/-- C4 counterexample: on the too-short name "short.nc" the parsing
functions do not fail; `getDate` silently returns the truncated identity
"--" and `getTile` and the merge engine's date slice return the empty
string.  This contradicts the claim that parsing a too-short name fails
deterministically with a cannot-parse-tile-identity error: Python slicing
clamps, so no error is ever raised. -/
theorem getDate_short_name_silent_truncation :
    getDate "short.nc" = "--" ∧ getTile "short.nc" = ""
      ∧ pySlice "short.nc" 9 19 = "" := by
  refine ⟨by decide, by decide, by decide⟩

/-- C4 as amended: for every file name shorter than the slicing offsets
(at most 9 characters), `getDate`, `getTile` and the merge engine's
name slices are total and silently produce truncated or empty identity
strings; no error is raised. -/
theorem short_name_parsing_silently_truncates (f : String) (h : f.data.length ≤ 9) :
    getDate f = "--" ∧ getTile f = ""
    ∧ pySlice f 9 19 = "" ∧ pySlice f 20 26 = "" ∧ pySlice f 27 31 = "" := by
  have h11 : pySlice f 11 15 = "" := pySlice_eq_empty f 11 15 (by omega)
  have h15 : pySlice f 15 17 = "" := pySlice_eq_empty f 15 17 (by omega)
  have h17 : pySlice f 17 19 = "" := pySlice_eq_empty f 17 19 (by omega)
  refine ⟨?_, ?_, ?_, ?_, ?_⟩
  · unfold getDate
    rw [h11, h15, h17]
    rfl
  · exact pySlice_eq_empty f 38 44 (by omega)
  · exact pySlice_eq_empty f 9 19 (by omega)
  · exact pySlice_eq_empty f 20 26 (by omega)
  · exact pySlice_eq_empty f 27 31 (by omega)

/-- Closed instance of `short_name_parsing_silently_truncates` at the
7-character name "abc.nc4". -/
theorem short_name_parsing_silently_truncates_witness :
    ("abc.nc4" : String).data.length ≤ 9 ∧ getDate "abc.nc4" = "--" :=
  ⟨by decide, (short_name_parsing_silently_truncates "abc.nc4" (by decide)).1⟩

-- C8: the single-file workspace.

/-- C8: a workspace whose listing holds exactly one `.nc` file is handled
by renaming that file to the canonical output name `merged_cube.nc` and
returning without any merge; no other file is left behind. -/
theorem single_file_renamed_to_merged_cube (n : String) (d : DS) (nameSentinel : String)
    (h : endswith n ".nc" = true) :
    merge_Sentinel [(n, d)] nameSentinel = (none, [("merged_cube.nc", d)]) := by
  unfold merge_Sentinel
  simp [listdir, h, renameFS]

/-- Closed instance of `single_file_renamed_to_merged_cube`. -/
theorem single_file_renamed_to_merged_cube_witness :
    endswith "datacube_2020-06-01_T32ULC_R100.nc" ".nc" = true
    ∧ merge_Sentinel [("datacube_2020-06-01_T32ULC_R100.nc", ⟨[0], [0]⟩)] "out"
        = (none, [("merged_cube.nc", ⟨[0], [0]⟩)]) :=
  ⟨by decide,
   single_file_renamed_to_merged_cube "datacube_2020-06-01_T32ULC_R100.nc" ⟨[0], [0]⟩ "out"
     (by decide)⟩

-- C10: the validation phase of the merge engine.

/-- C10: `merge_Sentinel` raises `FileNotFoundError("Directory empty")`
(the EmptyWorkspace error) on every empty workspace and
`TypeError("Wrong file in directory")` (the ForeignFileInWorkspace error)
whenever some listed file lacks the `.nc` extension; in both cases the
error is raised by the validation phase before any rename, merge or
delete, so the workspace component of the result is the unchanged input
workspace. -/
theorem merge_validation_fails_before_any_mutation (fs : FS) (nameSentinel : String) :
    (fs = [] →
      merge_Sentinel fs nameSentinel = (some (S2Error.FileNotFoundError "Directory empty"), fs))
    ∧ ((∃ f ∈ listdir fs, endswith f ".nc" = false) →
      merge_Sentinel fs nameSentinel = (some (S2Error.TypeError "Wrong file in directory"), fs)) := by
  constructor
  · rintro rfl
    rfl
  · rintro ⟨f, hf, hfe⟩
    have hall : ¬ ((listdir fs).all (fun nc => endswith nc ".nc") = true) := by
      rw [List.all_eq_true]
      intro hforall
      rw [hforall f hf] at hfe
      exact absurd hfe (by decide)
    unfold merge_Sentinel
    rw [if_neg hall]

/-- Closed instance of `merge_validation_fails_before_any_mutation`: a
workspace holding the foreign file "notes.txt" fails with the
wrong-file error and is left unchanged. -/
theorem merge_validation_fails_before_any_mutation_witness :
    (∃ f ∈ listdir [("notes.txt", (⟨[0], [0]⟩ : DS))], endswith f ".nc" = false)
    ∧ merge_Sentinel [("notes.txt", (⟨[0], [0]⟩ : DS))] "out"
        = (some (S2Error.TypeError "Wrong file in directory"), [("notes.txt", ⟨[0], [0]⟩)]) :=
  ⟨⟨"notes.txt", by decide, by decide⟩,
   (merge_validation_fails_before_any_mutation [("notes.txt", ⟨[0], [0]⟩)] "out").2
     ⟨"notes.txt", by decide, by decide⟩⟩

-- C6 and C7: the zone-"31" deletion and the snapshot semantics of the
-- pairwise phase.

/-- C7 as amended: the pairwise phase iterates over the fixed listing
snapshot taken when `merge_Sentinel` starts, so a deletion performed by
an earlier pair comparison is not visible to later pair comparisons.
Concretely, in any two-file workspace whose first file `A` carries the
zone marker "31", the comparison (A, A) deletes `A` and the very next
comparison (A, B) — still enumerated from the stale snapshot — attempts
to delete `A` again and the run aborts with `NoPath`, with only `B` left
in the workspace; under the claimed re-read-per-comparison semantics the
second attempt could not happen. -/
theorem pairwise_phase_uses_fixed_snapshot (A B : String) (dsA dsB : DS) (nameSentinel : String)
    (hAnc : endswith A ".nc" = true) (hBnc : endswith B ".nc" = true)
    (h31 : pySlice A 21 23 = "31") (hne : A ≠ B) :
    merge_Sentinel [(A, dsA), (B, dsB)] nameSentinel
      = (some (S2Error.NoPath "No file in this path"), [(B, dsB)]) := by
  have hBA : B ≠ A := Ne.symm hne
  have e1 : delete [(A, dsA), (B, dsB)] A = (none, [(B, dsB)]) := by
    simp [delete, listdir, removeFS, hBA]
  have e2 : delete [(B, dsB)] A
      = (some (S2Error.NoPath "No file in this path"), [(B, dsB)]) := by
    simp [delete, listdir, hne]
  have p1 : pairStep [(A, dsA), (B, dsB)] A A = (none, [(B, dsB)]) := by
    rw [pairStep_zone31_fst _ _ _ h31]
    exact e1
  have p2 : pairStep [(B, dsB)] A B
      = (some (S2Error.NoPath "No file in this path"), [(B, dsB)]) := by
    rw [pairStep_zone31_fst _ _ _ h31]
    exact e2
  have hall : ([A, B].all (fun nc => endswith nc ".nc")) = true := by
    simp [List.all_cons, hAnc, hBnc]
  have houter : outerLoop [A, B] [(A, dsA), (B, dsB)] [A, B]
      = (some (S2Error.NoPath "No file in this path"), [(B, dsB)]) := by
    simp only [outerLoop, innerLoop, stepBind_ok, stepBind_err, p1, p2]
  show merge_Sentinel _ _ = _
  simp only [merge_Sentinel, listdir, List.map_cons, List.map_nil]
  rw [if_pos hall]
  rw [if_neg (by simp : ¬ (([A, B] : List String).length = 0))]
  rw [if_neg (by simp : ¬ (([A, B] : List String).length = 1))]
  rw [houter, stepBind_err]

/-- Closed instance of `pairwise_phase_uses_fixed_snapshot`. -/
theorem pairwise_phase_uses_fixed_snapshot_witness :
    pySlice "datacube_2020-07-11_T31UGS_R060.nc" 21 23 = "31"
    ∧ merge_Sentinel
        [("datacube_2020-07-11_T31UGS_R060.nc", ⟨[0], [0]⟩),
         ("datacube_2020-07-11_T32ULC_R060.nc", ⟨[1], [1]⟩)] "out"
      = (some (S2Error.NoPath "No file in this path"),
         [("datacube_2020-07-11_T32ULC_R060.nc", ⟨[1], [1]⟩)]) :=
  ⟨by decide,
   pairwise_phase_uses_fixed_snapshot
     "datacube_2020-07-11_T31UGS_R060.nc" "datacube_2020-07-11_T32ULC_R060.nc"
     ⟨[0], [0]⟩ ⟨[1], [1]⟩ "out" (by decide) (by decide) (by decide) (by decide)⟩

/-- C7 counterexample: the claim that the pairwise phase re-reads the
directory per comparison (so deletions from earlier pairs are visible to
later comparisons) is false on the code.  In this concrete two-file
workspace the zone-"31" file is deleted by the comparison (file1, file1),
yet the following comparison (file1, file2) — taken from the fixed
snapshot `files = os.listdir(directory)` read once at entry — still
names the deleted file and attempts to delete it again, so the run
aborts with `NoPath` instead of proceeding on the current listing. -/
theorem pairwise_snapshot_counterexample :
    merge_Sentinel
      [("datacube_2021-01-05_T31XYZ_R100.nc", ⟨[0, 1], [0]⟩),
       ("datacube_2021-01-05_T32UMC_R100.nc", ⟨[2, 3], [0]⟩)] "cube"
      = (some (S2Error.NoPath "No file in this path"),
         [("datacube_2021-01-05_T32UMC_R100.nc", ⟨[2, 3], [0]⟩)]) := by
  decide

/-- C6 (code bug): a workspace holding a zone-"31" file and one other
file.  The spec says the zone-"31" file is deleted and the merge of the
remaining files still completes, deletion being attempted only while the
file still exists; the code instead re-attempts the deletion on the next
inner-loop iteration (the file name is checked again while iterating the
stale snapshot) and `delete` raises `NoPath`, aborting the merge with no
final cube produced. -/
theorem zone31_file_deleted_twice_aborts_merge :
    merge_Sentinel
      [("datacube_2020-06-01_T31ULC_R100.nc", ⟨[0, 1], [5]⟩),
       ("datacube_2020-06-01_T32UMC_R100.nc", ⟨[2, 3], [5]⟩)] "nameSentinel"
      = (some (S2Error.NoPath "No file in this path"),
         [("datacube_2020-06-01_T32UMC_R100.nc", ⟨[2, 3], [5]⟩)]) := by
  decide

-- Helper facts about sorted coordinate vectors.

theorem headI_mem_ne_nil {l : List ℚ} (h : l ≠ []) : l.headI ∈ l := by
  cases l with
  | nil => exact absurd rfl h
  | cons a t => exact List.mem_cons_self a t

theorem sorted_headI_le {l : List ℚ} (hs : List.Sorted (· ≤ ·) l) :
    ∀ x ∈ l, l.headI ≤ x := by
  cases l with
  | nil => intro x hx; cases hx
  | cons a t =>
    intro x hx
    rcases List.mem_cons.mp hx with rfl | hxt
    · exact le_refl x
    · exact (List.sorted_cons.mp hs).1 x hxt

theorem getLastD_mem_ne_nil {l : List ℚ} (h : l ≠ []) (d : ℚ) : l.getLastD d ∈ l := by
  cases l with
  | nil => exact absurd rfl h
  | cons a t =>
    rw [List.getLastD_cons]
    exact List.getLastD_mem_cons t a

theorem sorted_le_getLastD {l : List ℚ} (hs : List.Sorted (· ≤ ·) l) (d : ℚ) :
    ∀ x ∈ l, x ≤ l.getLastD d := by
  induction l generalizing d with
  | nil => intro x hx; cases hx
  | cons a t ih =>
    intro x hx
    rw [List.getLastD_cons]
    rcases List.mem_cons.mp hx with rfl | hxt
    · cases t with
      | nil => exact le_refl x
      | cons b u =>
        have hmem : (b :: u).getLastD x ∈ b :: u := getLastD_mem_ne_nil (by simp) x
        exact (List.sorted_cons.mp hs).1 _ hmem
    · exact ih (List.sorted_cons.mp hs).2 a x hxt

/-- The longitude range produced by `merge_coords` on two ascending
nonempty longitude vectors whose heads and last elements are ordered
left-before-right: every output longitude lies in the closed interval
from the left head to the right last, both interval ends are attained,
and that interval is exactly the union of the two input ranges. -/
theorem merge_coords_lon_range (dsL dsR : DS)
    (hLs : List.Sorted (· ≤ ·) dsL.lon) (hRs : List.Sorted (· ≤ ·) dsR.lon)
    (hLne : dsL.lon ≠ []) (hRne : dsR.lon ≠ [])
    (hLR : dsL.lon.headI ≤ dsR.lon.headI)
    (hlast : dsL.lon.getLastD 0 ≤ dsR.lon.getLastD 0) :
    (∀ x ∈ (merge_coords dsL dsR).lon,
        dsL.lon.headI ≤ x ∧ x ≤ dsR.lon.getLastD 0)
    ∧ dsL.lon.headI ∈ (merge_coords dsL dsR).lon
    ∧ dsR.lon.getLastD 0 ∈ (merge_coords dsL dsR).lon
    ∧ (∀ x, x ∈ dsL.lon ∨ x ∈ dsR.lon →
        dsL.lon.headI ≤ x ∧ x ≤ dsR.lon.getLastD 0) := by
  have hR0last : dsR.lon.headI ≤ dsR.lon.getLastD 0 :=
    sorted_headI_le hRs _ (getLastD_mem_ne_nil hRne 0)
  refine ⟨?_, ?_, ?_, ?_⟩
  · intro x hx
    simp only [merge_coords, combine_by_coords, selLonSlice, List.mem_append,
      List.mem_filter, decide_eq_true_eq] at hx
    rcases hx with ⟨hxL, hcond⟩ | ⟨hxR, -⟩
    · exact ⟨hcond.1, hcond.2.trans hR0last⟩
    · exact ⟨hLR.trans (sorted_headI_le hRs x hxR), sorted_le_getLastD hRs 0 x hxR⟩
  · simp only [merge_coords, combine_by_coords, selLonSlice, List.mem_append,
      List.mem_filter, decide_eq_true_eq]
    exact Or.inl ⟨headI_mem_ne_nil hLne, le_refl _, hLR⟩
  · show dsR.lon.getLastD 0 ∈ (selLonSlice dsL dsL.lon.headI dsR.lon.headI).lon
        ++ dsR.lon.filter
          (fun x => decide (x ∉ (selLonSlice dsL dsL.lon.headI dsR.lon.headI).lon))
    by_cases hmem : dsR.lon.getLastD 0 ∈ (selLonSlice dsL dsL.lon.headI dsR.lon.headI).lon
    · exact List.mem_append.mpr (Or.inl hmem)
    · refine List.mem_append.mpr
        (Or.inr (List.mem_filter.mpr ⟨getLastD_mem_ne_nil hRne 0, ?_⟩))
      exact decide_eq_true hmem
  · intro x hx
    rcases hx with hxL | hxR
    · exact ⟨sorted_headI_le hLs x hxL, (sorted_le_getLastD hLs 0 x hxL).trans hlast⟩
    · exact ⟨hLR.trans (sorted_headI_le hRs x hxR), sorted_le_getLastD hRs 0 x hxR⟩

-- C9: duplicate elimination.

/-- C9: a workspace of exactly two `.nc` files with identical date, tile
and resolution slices.  The pairwise phase treats the pair as duplicates
of the same coverage and takes no action (the workspace is untouched by
the pairwise loops), and the full run collapses the pair to exactly one
surviving output file, the final concatenated cube. -/
theorem duplicate_pair_collapses_to_one_file (A B : String) (dsA dsB : DS)
    (nameSentinel : String)
    (hAnc : endswith A ".nc" = true) (hBnc : endswith B ".nc" = true)
    (hne : A ≠ B)
    (h31a : pySlice A 21 23 ≠ "31") (h31b : pySlice B 21 23 ≠ "31")
    (hd : pySlice A 9 19 = pySlice B 9 19)
    (ht : pySlice A 20 26 = pySlice B 20 26)
    (hr : pySlice A 27 31 = pySlice B 27 31)
    (hoA : nameSentinel ++ ".nc" ≠ A) (hoB : nameSentinel ++ ".nc" ≠ B) :
    outerLoop [A, B] [(A, dsA), (B, dsB)] [A, B] = (none, [(A, dsA), (B, dsB)])
    ∧ merge_Sentinel [(A, dsA), (B, dsB)] nameSentinel
        = (none, [(nameSentinel ++ ".nc", combine_by_coords dsA dsB)]) := by
  have hBA : B ≠ A := Ne.symm hne
  have p_aa := pairStep_self [(A, dsA), (B, dsB)] A h31a
  have p_ab := pairStep_dup [(A, dsA), (B, dsB)] A B h31a h31b hd ht hr
  have p_ba := pairStep_dup [(A, dsA), (B, dsB)] B A h31b h31a hd.symm ht.symm hr.symm
  have p_bb := pairStep_self [(A, dsA), (B, dsB)] B h31b
  have houter : outerLoop [A, B] [(A, dsA), (B, dsB)] [A, B]
      = (none, [(A, dsA), (B, dsB)]) := by
    simp only [outerLoop, innerLoop, stepBind_ok, p_aa, p_ab, p_ba, p_bb]
  have lA : lookupDS [(A, dsA), (B, dsB)] A = some dsA := by
    simp [lookupDS]
  have lB : lookupDS [(A, dsA), (B, dsB)] B = some dsB := by
    simp [lookupDS, hne]
  have hw : writeFS [(A, dsA), (B, dsB)] (nameSentinel ++ ".nc") (combine_by_coords dsA dsB)
      = [(A, dsA), (B, dsB), (nameSentinel ++ ".nc", combine_by_coords dsA dsB)] := by
    simp [writeFS, listdir, hoA, hoB]
  have d1 : delete [(A, dsA), (B, dsB), (nameSentinel ++ ".nc", combine_by_coords dsA dsB)] A
      = (none, [(B, dsB), (nameSentinel ++ ".nc", combine_by_coords dsA dsB)]) := by
    simp [delete, listdir, removeFS, hBA, hoA]
  have d2 : delete [(B, dsB), (nameSentinel ++ ".nc", combine_by_coords dsA dsB)] B
      = (none, [(nameSentinel ++ ".nc", combine_by_coords dsA dsB)]) := by
    simp [delete, listdir, removeFS, hoB]
  have hfinal : finalPhase [(A, dsA), (B, dsB)] nameSentinel
      = (none, [(nameSentinel ++ ".nc", combine_by_coords dsA dsB)]) := by
    simp only [finalPhase, listdir, List.map_cons, List.map_nil]
    rw [List.filterMap_cons_some lA, List.filterMap_cons_some lB, List.filterMap_nil]
    simp only [open_mfdataset, List.foldl_cons, List.foldl_nil]
    rw [hw]
    simp only [deleteAll, stepBind_ok, d1, d2]
  have hall : ([A, B].all (fun nc => endswith nc ".nc")) = true := by
    simp [List.all_cons, hAnc, hBnc]
  refine ⟨houter, ?_⟩
  show merge_Sentinel _ _ = _
  simp only [merge_Sentinel, listdir, List.map_cons, List.map_nil]
  rw [if_pos hall]
  rw [if_neg (by simp : ¬ (([A, B] : List String).length = 0))]
  rw [if_neg (by simp : ¬ (([A, B] : List String).length = 1))]
  rw [houter, stepBind_ok, hfinal]

/-- Closed instance of `duplicate_pair_collapses_to_one_file`: two copies
of the same coverage, both surviving the pairwise phase untouched and
collapsed to the single output cube. -/
theorem duplicate_pair_collapses_to_one_file_witness :
    "datacube_2020-06-01_T32ULC_R100.nc" ≠ "datacube_2020-06-01_T32ULC_R100 (1).nc"
    ∧ merge_Sentinel
        [("datacube_2020-06-01_T32ULC_R100.nc", ⟨[0, 1], [5]⟩),
         ("datacube_2020-06-01_T32ULC_R100 (1).nc", ⟨[0, 1], [5]⟩)] "cube"
      = (none, [("cube.nc", combine_by_coords ⟨[0, 1], [5]⟩ ⟨[0, 1], [5]⟩)]) :=
  ⟨by decide,
   (duplicate_pair_collapses_to_one_file
     "datacube_2020-06-01_T32ULC_R100.nc" "datacube_2020-06-01_T32ULC_R100 (1).nc"
     ⟨[0, 1], [5]⟩ ⟨[0, 1], [5]⟩ "cube"
     (by decide) (by decide) (by decide) (by decide) (by decide)
     (by decide) (by decide) (by decide) (by decide) (by decide)).2⟩

-- C1: the adjacent west/east coordinate join.

/-- C1: a workspace of exactly two `.nc` files sharing date and
resolution slices whose tile codes are the designated adjacent pair
(left "T32ULC", right "T32UMC").  The pairwise phase performs exactly one
coordinate join: it writes the single merged file (named from the shared
date/resolution with "Merged" in place of the tile code) holding
`merge_coords` of the two datasets and deletes both inputs; the full run
then leaves exactly one file, the final cube with that joined dataset.
When both longitude vectors are ascending, nonempty and ordered
left-before-right (head and last), the joined longitude range is exactly
the union of the two input ranges: every joined longitude lies between
the left head and the right last, both of which are attained, and the
union of the input vectors spans the same interval. -/
theorem adjacent_pair_coordinate_join (A B : String) (dsL dsR : DS) (nameSentinel : String)
    (hAnc : endswith A ".nc" = true) (hBnc : endswith B ".nc" = true)
    (hd : pySlice A 9 19 = pySlice B 9 19)
    (htA : pySlice A 20 26 = "T32ULC")
    (htB : pySlice B 20 26 = "T32UMC")
    (hr : pySlice A 27 31 = pySlice B 27 31)
    (hNA : pySlice A 0 20 ++ "Merged" ++ pySlice A 26 31 ++ ".nc" ≠ A)
    (hNB : pySlice A 0 20 ++ "Merged" ++ pySlice A 26 31 ++ ".nc" ≠ B)
    (hON : nameSentinel ++ ".nc" ≠ pySlice A 0 20 ++ "Merged" ++ pySlice A 26 31 ++ ".nc")
    (hLs : List.Sorted (· ≤ ·) dsL.lon) (hRs : List.Sorted (· ≤ ·) dsR.lon)
    (hLne : dsL.lon ≠ []) (hRne : dsR.lon ≠ [])
    (hLR : dsL.lon.headI ≤ dsR.lon.headI)
    (hlast : dsL.lon.getLastD 0 ≤ dsR.lon.getLastD 0) :
    outerLoop [A, B] [(A, dsL), (B, dsR)] [A, B]
      = (none, [(pySlice A 0 20 ++ "Merged" ++ pySlice A 26 31 ++ ".nc",
          merge_coords dsL dsR)])
    ∧ merge_Sentinel [(A, dsL), (B, dsR)] nameSentinel
      = (none, [(nameSentinel ++ ".nc", merge_coords dsL dsR)])
    ∧ ((∀ x ∈ (merge_coords dsL dsR).lon,
          dsL.lon.headI ≤ x ∧ x ≤ dsR.lon.getLastD 0)
        ∧ dsL.lon.headI ∈ (merge_coords dsL dsR).lon
        ∧ dsR.lon.getLastD 0 ∈ (merge_coords dsL dsR).lon
        ∧ (∀ x, x ∈ dsL.lon ∨ x ∈ dsR.lon →
            dsL.lon.headI ≤ x ∧ x ≤ dsR.lon.getLastD 0)) := by
  have hAB : A ≠ B := by
    intro h
    rw [h, htB] at htA
    exact absurd htA (by decide)
  have h31a : pySlice A 21 23 ≠ "31" := by
    rw [zone_of_tile_T32ULC A htA]; decide
  have h31b : pySlice B 21 23 ≠ "31" := by
    rw [zone_of_tile_T32UMC B htB]; decide
  have oA : open_dataset [(A, dsL), (B, dsR)] A = .ok dsL := by
    simp [open_dataset, lookupDS]
  have oB : open_dataset [(A, dsL), (B, dsR)] B = .ok dsR := by
    simp [open_dataset, lookupDS, hAB]
  have p_aa := pairStep_self [(A, dsL), (B, dsR)] A h31a
  have p_ab := pairStep_merge [(A, dsL), (B, dsR)] A B dsL dsR hd htA htB hr oA oB
  have hwN : writeFS [(A, dsL), (B, dsR)]
      (pySlice A 0 20 ++ "Merged" ++ pySlice A 26 31 ++ ".nc") (merge_coords dsL dsR)
      = [(A, dsL), (B, dsR),
         (pySlice A 0 20 ++ "Merged" ++ pySlice A 26 31 ++ ".nc", merge_coords dsL dsR)] := by
    simp [writeFS, listdir, hNA, hNB]
  have dA : delete [(A, dsL), (B, dsR),
        (pySlice A 0 20 ++ "Merged" ++ pySlice A 26 31 ++ ".nc", merge_coords dsL dsR)] A
      = (none, [(B, dsR),
          (pySlice A 0 20 ++ "Merged" ++ pySlice A 26 31 ++ ".nc", merge_coords dsL dsR)]) := by
    simp [delete, listdir, removeFS, Ne.symm hAB, hNA]
  have dB : delete [(B, dsR),
        (pySlice A 0 20 ++ "Merged" ++ pySlice A 26 31 ++ ".nc", merge_coords dsL dsR)] B
      = (none, [(pySlice A 0 20 ++ "Merged" ++ pySlice A 26 31 ++ ".nc",
          merge_coords dsL dsR)]) := by
    simp [delete, listdir, removeFS, hNB]
  have p_ab_val : pairStep [(A, dsL), (B, dsR)] A B
      = (none, [(pySlice A 0 20 ++ "Merged" ++ pySlice A 26 31 ++ ".nc",
          merge_coords dsL dsR)]) := by
    rw [p_ab, hwN, dA, stepBind_ok, dB]
  have p_ba : pairStep [(pySlice A 0 20 ++ "Merged" ++ pySlice A 26 31 ++ ".nc",
        merge_coords dsL dsR)] B A
      = (none, [(pySlice A 0 20 ++ "Merged" ++ pySlice A 26 31 ++ ".nc",
          merge_coords dsL dsR)]) :=
    pairStep_noAction _ B A h31b h31a (by rw [htA, htB]; decide) (by rw [htB]; decide)
  have p_bb := pairStep_self [(pySlice A 0 20 ++ "Merged" ++ pySlice A 26 31 ++ ".nc",
      merge_coords dsL dsR)] B h31b
  have houter : outerLoop [A, B] [(A, dsL), (B, dsR)] [A, B]
      = (none, [(pySlice A 0 20 ++ "Merged" ++ pySlice A 26 31 ++ ".nc",
          merge_coords dsL dsR)]) := by
    simp only [outerLoop, innerLoop, stepBind_ok, p_aa, p_ab_val, p_ba, p_bb]
  have lN : lookupDS [(pySlice A 0 20 ++ "Merged" ++ pySlice A 26 31 ++ ".nc",
        merge_coords dsL dsR)] (pySlice A 0 20 ++ "Merged" ++ pySlice A 26 31 ++ ".nc")
      = some (merge_coords dsL dsR) := by
    simp [lookupDS]
  have hwO : writeFS [(pySlice A 0 20 ++ "Merged" ++ pySlice A 26 31 ++ ".nc",
        merge_coords dsL dsR)] (nameSentinel ++ ".nc") (merge_coords dsL dsR)
      = [(pySlice A 0 20 ++ "Merged" ++ pySlice A 26 31 ++ ".nc", merge_coords dsL dsR),
         (nameSentinel ++ ".nc", merge_coords dsL dsR)] := by
    simp [writeFS, listdir, hON]
  have dN : delete [(pySlice A 0 20 ++ "Merged" ++ pySlice A 26 31 ++ ".nc",
        merge_coords dsL dsR), (nameSentinel ++ ".nc", merge_coords dsL dsR)]
        (pySlice A 0 20 ++ "Merged" ++ pySlice A 26 31 ++ ".nc")
      = (none, [(nameSentinel ++ ".nc", merge_coords dsL dsR)]) := by
    simp [delete, listdir, removeFS, hON]
  have hfinal : finalPhase [(pySlice A 0 20 ++ "Merged" ++ pySlice A 26 31 ++ ".nc",
        merge_coords dsL dsR)] nameSentinel
      = (none, [(nameSentinel ++ ".nc", merge_coords dsL dsR)]) := by
    simp only [finalPhase, listdir, List.map_cons, List.map_nil]
    rw [List.filterMap_cons_some lN, List.filterMap_nil]
    simp only [open_mfdataset, List.foldl_nil]
    rw [hwO]
    simp only [deleteAll, stepBind_ok, dN]
  have hall : ([A, B].all (fun nc => endswith nc ".nc")) = true := by
    simp [List.all_cons, hAnc, hBnc]
  refine ⟨houter, ?_, merge_coords_lon_range dsL dsR hLs hRs hLne hRne hLR hlast⟩
  show merge_Sentinel _ _ = _
  simp only [merge_Sentinel, listdir, List.map_cons, List.map_nil]
  rw [if_pos hall]
  rw [if_neg (by simp : ¬ (([A, B] : List String).length = 0))]
  rw [if_neg (by simp : ¬ (([A, B] : List String).length = 1))]
  rw [houter, stepBind_ok, hfinal]

/-- Closed instance of `adjacent_pair_coordinate_join`: the T32ULC file
with longitudes [0, 1, 2] and the T32UMC file with longitudes [2, 3, 4]
collapse to the single output cube holding their coordinate join. -/
theorem adjacent_pair_coordinate_join_witness :
    pySlice "datacube_2020-06-01_T32ULC_R100.nc" 20 26 = "T32ULC"
    ∧ pySlice "datacube_2020-06-01_T32UMC_R100.nc" 20 26 = "T32UMC"
    ∧ merge_Sentinel
        [("datacube_2020-06-01_T32ULC_R100.nc", ⟨[0, 1, 2], [9, 8]⟩),
         ("datacube_2020-06-01_T32UMC_R100.nc", ⟨[2, 3, 4], [9, 8]⟩)] "output"
      = (none, [("output.nc", merge_coords ⟨[0, 1, 2], [9, 8]⟩ ⟨[2, 3, 4], [9, 8]⟩)]) :=
  ⟨by decide, by decide,
   (adjacent_pair_coordinate_join
     "datacube_2020-06-01_T32ULC_R100.nc" "datacube_2020-06-01_T32UMC_R100.nc"
     ⟨[0, 1, 2], [9, 8]⟩ ⟨[2, 3, 4], [9, 8]⟩ "output"
     (by decide) (by decide) (by decide) (by decide) (by decide) (by decide)
     (by decide) (by decide) (by decide) (by decide) (by decide) (by decide)
     (by decide) (by decide) (by decide)).2.1⟩
